import Mathlib

/-!
Verification of the FAT boot-sector parser (src/fat_parser.py) against its
natural-language specification.

The embedding models the three core functions of the source file:
`get_drive_format`, `get_boot_sector_params` and `calculate_parameters`.
Raw sectors are lists of byte values (`List Nat`, each element < 256 on real
inputs); Python dictionaries whose values are integers or strings become
association lists `List (String × PyVal)`; Python runtime exceptions
(ZeroDivisionError, KeyError, struct.error, UnicodeDecodeError, TypeError)
become an explicit `Except PyErr` result.
-/

set_option maxRecDepth 10000

deriving instance DecidableEq for Except

/-- The Python runtime errors the source functions can raise. -/
inductive PyErr where
  | keyError
  | typeError
  | zeroDivisionError
  | structError
  | unicodeDecodeError
deriving DecidableEq, Repr

/-- A Python value stored in one of the dictionaries the source manipulates:
decoded boot-sector fields are ints, and the `locals()`-derived result of
`calculate_parameters` additionally holds the `format_name` string. -/
inductive PyVal where
  | vint (i : Int)
  | vstr (s : String)
deriving DecidableEq, Repr

/-- A Python dict with string keys, as an association list in insertion
order (all dicts built by the source have distinct keys). -/
abbrev Dict := List (String × PyVal)

/-- Lookup in a dict: `d[k]` returning `none` when the key is absent. -/
def dictGet : Dict → String → Option PyVal
  | [], _ => none
  | (k, v) :: rest, key => if k = key then some v else dictGet rest key

/-- Python slicing `data[s:e]` for `0 ≤ s ≤ e`: clamped, never failing. -/
def pySlice (l : List Nat) (s e : Nat) : List Nat :=
  (l.drop s).take (e - s)

/-- A UTF-8 continuation byte: in [0x80, 0xC0). -/
def isCont (c : Nat) : Bool := c / 64 == 2

/-- Extra first-continuation constraint of a 3-byte sequence: lead 0xE0
forbids overlong encodings (c1 ≥ 0xA0) and lead 0xED forbids surrogates
(c1 < 0xA0). -/
def utf8guard3 (b c1 : Nat) : Bool :=
  (b != 224 || Nat.ble 160 c1) && (b != 237 || Nat.blt c1 160)

/-- Extra first-continuation constraint of a 4-byte sequence: lead 0xF0
forbids overlong encodings (c1 ≥ 0x90) and lead 0xF4 forbids code points
above U+10FFFF (c1 < 0x90). -/
def utf8guard4 (b c1 : Nat) : Bool :=
  (b != 240 || Nat.ble 144 c1) && (b != 244 || Nat.blt c1 144)

/-- Decode one multi-byte UTF-8 sequence with lead byte `b` (≥ 0x80) and
remaining input `rest`: the code point and the input left after the
sequence, or `none` when the sequence is invalid. -/
def utf8chunk (b : Nat) (rest : List Nat) : Option (Nat × List Nat) :=
  if b < 194 then none
  else if b < 224 then
    match rest with
    | c1 :: rest1 =>
      if isCont c1 then some ((b - 192) * 64 + (c1 - 128), rest1) else none
    | [] => none
  else if b < 240 then
    match rest with
    | c1 :: c2 :: rest2 =>
      if isCont c1 && isCont c2 && utf8guard3 b c1 then
        some ((b - 224) * 4096 + (c1 - 128) * 64 + (c2 - 128), rest2)
      else none
    | _ => none
  else if b < 245 then
    match rest with
    | c1 :: c2 :: c3 :: rest3 =>
      if isCont c1 && isCont c2 && isCont c3 && utf8guard4 b c1 then
        some ((b - 240) * 262144 + (c1 - 128) * 4096 + (c2 - 128) * 64 + (c3 - 128), rest3)
      else none
    | _ => none
  else none

/-- The recursion of the UTF-8 decoder, with an explicit step budget:
each decoded code point consumes at least one input byte, so a budget of
the input length never runs out (the `0, _ :: _` case is unreachable when
the budget is at least the input length). -/
def utf8decodeAux : Nat → List Nat → Option (List Nat)
  | _, [] => some []
  | 0, _ :: _ => none
  | fuel + 1, b :: rest =>
    if b < 128 then (utf8decodeAux fuel rest).map fun cs => b :: cs
    else
      match utf8chunk b rest with
      | some (cp, rem) => (utf8decodeAux fuel rem).map fun cs => cp :: cs
      | none => none

/-- Strict UTF-8 decoding of a byte string to its list of code points, as
performed by Python bytes.decode() with the default codec: `none` models a
raised UnicodeDecodeError.  Continuation bytes must lie in [0x80, 0xC0);
overlong encodings, surrogates (U+D800..U+DFFF) and code points above
U+10FFFF are rejected, exactly as CPython does. -/
def utf8decode (l : List Nat) : Option (List Nat) :=
  utf8decodeAux l.length l

/-- `startsWith pat l` : `pat` is an initial segment of `l`. -/
def startsWith : List Nat → List Nat → Bool
  | [], _ => true
  | _ :: _, [] => false
  | p :: ps, b :: bs => p == b && startsWith ps bs

/-- `containsSeq pat l` : `pat` occurs as a contiguous run inside `l`;
this is Python substring membership `pat in l`. -/
def containsSeq (pat : List Nat) : List Nat → Bool
  | [] => startsWith pat []
  | b :: bs => startsWith pat (b :: bs) || containsSeq pat bs

/-- The byte (and code-point) sequence of the literal "EXFAT". -/
def exfatPat : List Nat := [69, 88, 70, 65, 84]

/-- Embedding of `get_drive_format`: unpack the 8 bytes at [3:11) with
struct format "8s" (struct.error unless the slice has exactly 8 bytes),
decode them as strict UTF-8 (UnicodeDecodeError on invalid bytes), and
return "exfat" when the decoded string contains "EXFAT", else "fat". -/
def get_drive_format (data : List Nat) : Except PyErr String :=
  let sl := pySlice data 3 11
  if sl.length = 8 then
    match utf8decode sl with
    | none => .error .unicodeDecodeError
    | some cs => if containsSeq exfatPat cs then .ok "exfat" else .ok "fat"
  else .error .structError

/-- The struct format codes used by the source tables. -/
inductive Enc where
  | u16   -- format code for a 2-byte unsigned little-endian integer
  | i8    -- format code for a 1-byte signed integer
  | u32   -- format code for a 4-byte unsigned little-endian integer
  | u64   -- format code for an 8-byte unsigned little-endian integer
deriving DecidableEq, Repr

/-- Byte width of each struct format code. -/
def encSize : Enc → Nat
  | .u16 => 2
  | .i8 => 1
  | .u32 => 4
  | .u64 => 8

/-- Embedding of one struct.unpack call: struct.error unless the buffer
length equals the format width, otherwise the little-endian value (with
sign extension for the signed 8-bit format). -/
def unpackEnc (e : Enc) (l : List Nat) : Except PyErr Int :=
  if l.length = encSize e then
    match e with
    | .u16 => .ok ((l.getD 0 0 + 256 * l.getD 1 0 : Nat) : Int)
    | .i8 =>
      .ok (if l.getD 0 0 < 128 then (l.getD 0 0 : Int) else (l.getD 0 0 : Int) - 256)
    | .u32 =>
      .ok ((l.getD 0 0 + 256 * l.getD 1 0 + 65536 * l.getD 2 0 +
        16777216 * l.getD 3 0 : Nat) : Int)
    | .u64 =>
      .ok ((l.getD 0 0 + 256 * l.getD 1 0 + 65536 * l.getD 2 0 +
        16777216 * l.getD 3 0 + 4294967296 * l.getD 4 0 +
        1099511627776 * l.getD 5 0 + 281474976710656 * l.getD 6 0 +
        72057594037927936 * l.getD 7 0 : Nat) : Int)
  else .error .structError

/-- The FAT field table of the source, in declaration order:
(name, start offset, end offset, struct format). -/
def OFFSET_TO_FIELD_MAP : List (String × Nat × Nat × Enc) :=
  [("bytes_per_sector", 11, 13, .u16),
   ("sectors_per_cluster", 13, 14, .i8),
   ("reserved_sectors_count", 14, 16, .u16),
   ("numbers_of_FAT", 16, 17, .i8),
   ("root_entity_count", 17, 19, .u16),
   ("total_sectors_16", 19, 21, .u16),
   ("media", 21, 22, .i8),
   ("fat_size_16", 22, 24, .u16),
   ("sectors_per_track", 24, 26, .u16),
   ("number_of_heads", 26, 28, .u16),
   ("number_of_hidden_sectors", 28, 32, .u32),
   ("total_sectors_32", 32, 36, .u32),
   ("fat_size_32", 36, 40, .u32)]

/-- The exFAT field table of the source, in declaration order. -/
def EXFAT_OFFSET_TO_FIELD_MAP : List (String × Nat × Nat × Enc) :=
  [("partition_offset", 64, 72, .u64),
   ("volume_length", 72, 80, .u64),
   ("fat_offset", 80, 84, .u32),
   ("fat_length", 84, 88, .u32),
   ("cluster_heap_offset", 88, 92, .u32),
   ("cluster_count", 92, 96, .u32),
   ("first_cluster_of_root_directory", 96, 100, .u32),
   ("bytes_per_sector_shift", 108, 109, .i8),
   ("sectors_per_cluster_shift", 109, 110, .i8),
   ("number_of_fats", 110, 111, .i8)]

/-- FORMATS_MAP.get(format_name): the table for "fat" or "exfat",
none for any other name. -/
def FORMATS_MAP (format_name : String) : Option (List (String × Nat × Nat × Enc)) :=
  if format_name = "fat" then some OFFSET_TO_FIELD_MAP
  else if format_name = "exfat" then some EXFAT_OFFSET_TO_FIELD_MAP
  else none

/-- The decoding loop of `get_boot_sector_params`: for each table entry
slice the data and unpack it, building the result dict in table order;
the first failing unpack aborts the whole call with no partial result. -/
def decodeFields (data : List Nat) : List (String × Nat × Nat × Enc) → Except PyErr Dict
  | [] => .ok []
  | (name, s, e, enc) :: rest =>
    match unpackEnc enc (pySlice data s e) with
    | .error err => .error err
    | .ok v =>
      match decodeFields data rest with
      | .error err => .error err
      | .ok m => .ok ((name, .vint v) :: m)

/-- Embedding of `get_boot_sector_params`: look the format name up in
FORMATS_MAP (iterating over a missing table raises TypeError) and decode
every field of the table.  Note the source performs no check at all on
the length of `data`. -/
def get_boot_sector_params (data : List Nat) (format_name : String) : Except PyErr Dict :=
  match FORMATS_MAP format_name with
  | none => .error .typeError
  | some table => decodeFields data table

/-- `boot_sector_params[key]` as an int: KeyError when the key is missing,
TypeError when the stored value is not an int (never happens for dicts
produced by the decoder). -/
def getI (d : Dict) (key : String) : Except PyErr Int :=
  match dictGet d key with
  | some (.vint i) => .ok i
  | some (.vstr _) => .error .typeError
  | none => .error .keyError

/-- Embedding of `calculate_parameters`.  Divisions follow Python `/` on
integers: ZeroDivisionError on a zero divisor, and otherwise
`math.floor(a / b) = Int.fdiv a b` (exact for every value a 16/32-bit
field can hold, where the float quotient is never close enough to an
integer to floor incorrectly).  The returned dict models
`locals()` followed by `pop('boot_sector_params')`: the parameter
`format_name` and then the seven derived quantities, in assignment
order. -/
def calculate_parameters (boot_sector_params : Dict) (format_name : String) :
    Except PyErr Dict := do
  let fat_start_sector ← getI boot_sector_params "reserved_sectors_count"
  let numbersOfFat ← getI boot_sector_params "numbers_of_FAT"
  let fatSize16 ← getI boot_sector_params "fat_size_16"
  let perFat ← if fatSize16 ≠ 0 then pure fatSize16
    else getI boot_sector_params "fat_size_32"
  let fat_sectors := numbersOfFat * perFat
  let root_directory_start_sector := fat_start_sector + fat_sectors
  let rootEntityCount ← getI boot_sector_params "root_entity_count"
  let bytesPerSector ← getI boot_sector_params "bytes_per_sector"
  let root_directory_sectors ← if bytesPerSector = 0 then .error .zeroDivisionError
    else pure (Int.fdiv (32 * rootEntityCount + bytesPerSector - 1) bytesPerSector)
  let data_start_sector := root_directory_start_sector + root_directory_sectors
  let totalSectors16 ← getI boot_sector_params "total_sectors_16"
  let data_sectors ← if totalSectors16 ≠ 0 then pure (totalSectors16 - data_start_sector)
    else do
      let totalSectors32 ← getI boot_sector_params "total_sectors_32"
      pure (totalSectors32 - data_start_sector)
  let sectorsPerCluster ← getI boot_sector_params "sectors_per_cluster"
  let count_of_clusters ← if sectorsPerCluster = 0 then .error .zeroDivisionError
    else pure (Int.fdiv data_sectors sectorsPerCluster)
  pure [("format_name", .vstr format_name),
        ("fat_start_sector", .vint fat_start_sector),
        ("fat_sectors", .vint fat_sectors),
        ("root_directory_start_sector", .vint root_directory_start_sector),
        ("root_directory_sectors", .vint root_directory_sectors),
        ("data_start_sector", .vint data_start_sector),
        ("data_sectors", .vint data_sectors),
        ("count_of_clusters", .vint count_of_clusters)]

/-- A Python local variable value inside `calculate_parameters`:
the parameter `boot_sector_params` is a dict reference, `format_name` a
string, and the derived quantities are ints. -/
inductive LVal where
  | ldict (d : Dict)
  | lint (i : Int)
  | lstr (s : String)

/-- `d[k]` as a read-only operation returning the (unchanged) dict next to
the looked-up value: Python dict subscription never mutates. -/
def getISt (d : Dict) (key : String) : Except PyErr Int × Dict :=
  (getI d key, d)

/-- `locals_dict.pop(key)`: remove the entry for `key` (the locals
snapshot has distinct keys, so removing every occurrence is the same). -/
def lvalPop (l : List (String × LVal)) (key : String) : List (String × LVal) :=
  l.filter (fun kv => kv.1 ≠ key)

/-- Convert the popped locals snapshot into a plain result dict;
`none` if a dict-valued local were still present (never the case after
`boot_sector_params` is popped). -/
def lvalsToDict : List (String × LVal) → Option Dict
  | [] => some []
  | (k, .lint i) :: rest =>
    match lvalsToDict rest with
    | some m => some ((k, .vint i) :: m)
    | none => none
  | (k, .lstr s) :: rest =>
    match lvalsToDict rest with
    | some m => some ((k, .vstr s) :: m)
    | none => none
  | (_, .ldict _) :: _ => none

/-- State-instrumented embedding of `calculate_parameters`: identical to
`calculate_parameters` but threading the `boot_sector_params` dict through
every operation performed on it, and modelling the final
`calculated_params = locals(); calculated_params.pop('boot_sector_params')`
explicitly: the snapshot holds the parameters and the assigned locals in
insertion order, and the pop acts on that snapshot, not on the input dict.
On success the final state of the input dict is returned next to the
result. -/
def calculate_parameters_st (boot_sector_params : Dict) (format_name : String) :
    Except PyErr (Dict × Dict) :=
  match getISt boot_sector_params "reserved_sectors_count" with
  | (.error e, _) => .error e
  | (.ok fat_start_sector, st1) =>
  match getISt st1 "numbers_of_FAT" with
  | (.error e, _) => .error e
  | (.ok numbersOfFat, st2) =>
  match getISt st2 "fat_size_16" with
  | (.error e, _) => .error e
  | (.ok fatSize16, st3) =>
  match (if fatSize16 ≠ 0 then ((.ok fatSize16 : Except PyErr Int), st3)
    else getISt st3 "fat_size_32") with
  | (.error e, _) => .error e
  | (.ok perFat, st4) =>
  let fat_sectors := numbersOfFat * perFat
  let root_directory_start_sector := fat_start_sector + fat_sectors
  match getISt st4 "root_entity_count" with
  | (.error e, _) => .error e
  | (.ok rootEntityCount, st5) =>
  match getISt st5 "bytes_per_sector" with
  | (.error e, _) => .error e
  | (.ok bytesPerSector, st6) =>
  if bytesPerSector = 0 then .error .zeroDivisionError
  else
  let root_directory_sectors :=
    Int.fdiv (32 * rootEntityCount + bytesPerSector - 1) bytesPerSector
  let data_start_sector := root_directory_start_sector + root_directory_sectors
  match getISt st6 "total_sectors_16" with
  | (.error e, _) => .error e
  | (.ok totalSectors16, st7) =>
  match (if totalSectors16 ≠ 0 then
      ((.ok (totalSectors16 - data_start_sector) : Except PyErr Int), st7)
    else
      match getISt st7 "total_sectors_32" with
      | (.ok totalSectors32, st) =>
        ((.ok (totalSectors32 - data_start_sector) : Except PyErr Int), st)
      | (.error e, st) => ((.error e : Except PyErr Int), st)) with
  | (.error e, _) => .error e
  | (.ok data_sectors, st8) =>
  match getISt st8 "sectors_per_cluster" with
  | (.error e, _) => .error e
  | (.ok sectorsPerCluster, st9) =>
  if sectorsPerCluster = 0 then .error .zeroDivisionError
  else
  let count_of_clusters := Int.fdiv data_sectors sectorsPerCluster
  let localsSnapshot : List (String × LVal) :=
    [("boot_sector_params", .ldict st9),
     ("format_name", .lstr format_name),
     ("fat_start_sector", .lint fat_start_sector),
     ("fat_sectors", .lint fat_sectors),
     ("root_directory_start_sector", .lint root_directory_start_sector),
     ("root_directory_sectors", .lint root_directory_sectors),
     ("data_start_sector", .lint data_start_sector),
     ("data_sectors", .lint data_sectors),
     ("count_of_clusters", .lint count_of_clusters)]
  let calculated_params := lvalPop localsSnapshot "boot_sector_params"
  match lvalsToDict calculated_params with
  | some result => .ok (result, st9)
  | none => .error .typeError

/-- The thirteen FAT boot-sector fields, typed as the decoder produces
them: unsigned fields are naturals, the three signed 8-bit fields are
integers. -/
structure FatFields where
  bytes_per_sector : Nat
  sectors_per_cluster : Int
  reserved_sectors_count : Nat
  numbers_of_FAT : Int
  root_entity_count : Nat
  total_sectors_16 : Nat
  media : Int
  fat_size_16 : Nat
  sectors_per_track : Nat
  number_of_heads : Nat
  number_of_hidden_sectors : Nat
  total_sectors_32 : Nat
  fat_size_32 : Nat
deriving DecidableEq, Repr

/-- The BootSectorParams dict the decoder produces for a FAT sector with
the given field values, in table order. -/
def mkBootDict (f : FatFields) : Dict :=
  [("bytes_per_sector", .vint f.bytes_per_sector),
   ("sectors_per_cluster", .vint f.sectors_per_cluster),
   ("reserved_sectors_count", .vint f.reserved_sectors_count),
   ("numbers_of_FAT", .vint f.numbers_of_FAT),
   ("root_entity_count", .vint f.root_entity_count),
   ("total_sectors_16", .vint f.total_sectors_16),
   ("media", .vint f.media),
   ("fat_size_16", .vint f.fat_size_16),
   ("sectors_per_track", .vint f.sectors_per_track),
   ("number_of_heads", .vint f.number_of_heads),
   ("number_of_hidden_sectors", .vint f.number_of_hidden_sectors),
   ("total_sectors_32", .vint f.total_sectors_32),
   ("fat_size_32", .vint f.fat_size_32)]

/-- In-range condition for FAT field values: each value fits the on-disk
width of its field. -/
def FatFields.InRange (f : FatFields) : Prop :=
  f.bytes_per_sector < 65536 ∧ (-128 ≤ f.sectors_per_cluster ∧ f.sectors_per_cluster < 128) ∧
  f.reserved_sectors_count < 65536 ∧ (-128 ≤ f.numbers_of_FAT ∧ f.numbers_of_FAT < 128) ∧
  f.root_entity_count < 65536 ∧ f.total_sectors_16 < 65536 ∧
  (-128 ≤ f.media ∧ f.media < 128) ∧ f.fat_size_16 < 65536 ∧
  f.sectors_per_track < 65536 ∧ f.number_of_heads < 65536 ∧
  f.number_of_hidden_sectors < 4294967296 ∧ f.total_sectors_32 < 4294967296 ∧
  f.fat_size_32 < 4294967296

instance (f : FatFields) : Decidable f.InRange := by
  unfold FatFields.InRange; infer_instance

/-- Little-endian byte encoding of an unsigned 16-bit value. -/
def u16bytes (v : Nat) : List Nat := [v % 256, v / 256 % 256]

/-- Byte encoding of a signed 8-bit value (two's complement). -/
def i8bytes (v : Int) : List Nat := [(v.emod 256).toNat]

/-- Little-endian byte encoding of an unsigned 32-bit value. -/
def u32bytes (v : Nat) : List Nat :=
  [v % 256, v / 256 % 256, v / 65536 % 256, v / 16777216 % 256]

/-- Little-endian byte encoding of an unsigned 64-bit value. -/
def u64bytes (v : Nat) : List Nat :=
  [v % 256, v / 256 % 256, v / 65536 % 256, v / 16777216 % 256,
   v / 4294967296 % 256, v / 1099511627776 % 256,
   v / 281474976710656 % 256, v / 72057594037927936 % 256]

/-- A synthetic 512-byte FAT boot sector carrying the given field values
at the offsets of the FAT table (bytes outside any field are zero), written
as one flat list: 11 leading zero bytes, then the little-endian bytes of
each field in table order (offsets 11..39), then 472 zero bytes. -/
def mkFatSector (f : FatFields) : List Nat :=
  [0, 0, 0, 0, 0, 0, 0, 0, 0, 0, 0, f.bytes_per_sector % 256, f.bytes_per_sector / 256 % 256,
   (f.sectors_per_cluster.emod 256).toNat, f.reserved_sectors_count % 256,
   f.reserved_sectors_count / 256 % 256, (f.numbers_of_FAT.emod 256).toNat,
   f.root_entity_count % 256, f.root_entity_count / 256 % 256, f.total_sectors_16 % 256,
   f.total_sectors_16 / 256 % 256, (f.media.emod 256).toNat, f.fat_size_16 % 256,
   f.fat_size_16 / 256 % 256, f.sectors_per_track % 256, f.sectors_per_track / 256 % 256,
   f.number_of_heads % 256, f.number_of_heads / 256 % 256, f.number_of_hidden_sectors % 256,
   f.number_of_hidden_sectors / 256 % 256, f.number_of_hidden_sectors / 65536 % 256,
   f.number_of_hidden_sectors / 16777216 % 256, f.total_sectors_32 % 256,
   f.total_sectors_32 / 256 % 256, f.total_sectors_32 / 65536 % 256,
   f.total_sectors_32 / 16777216 % 256, f.fat_size_32 % 256, f.fat_size_32 / 256 % 256,
   f.fat_size_32 / 65536 % 256, f.fat_size_32 / 16777216 % 256] ++
  List.replicate 472 0

/-- The ten exFAT boot-sector fields, typed as the decoder produces them. -/
structure ExfatFields where
  partition_offset : Nat
  volume_length : Nat
  fat_offset : Nat
  fat_length : Nat
  cluster_heap_offset : Nat
  cluster_count : Nat
  first_cluster_of_root_directory : Nat
  bytes_per_sector_shift : Int
  sectors_per_cluster_shift : Int
  number_of_fats : Int
deriving DecidableEq, Repr

/-- In-range condition for the exFAT field values. -/
def ExfatFields.InRange (g : ExfatFields) : Prop :=
  g.partition_offset < 18446744073709551616 ∧ g.volume_length < 18446744073709551616 ∧
  g.fat_offset < 4294967296 ∧ g.fat_length < 4294967296 ∧
  g.cluster_heap_offset < 4294967296 ∧ g.cluster_count < 4294967296 ∧
  g.first_cluster_of_root_directory < 4294967296 ∧
  (-128 ≤ g.bytes_per_sector_shift ∧ g.bytes_per_sector_shift < 128) ∧
  (-128 ≤ g.sectors_per_cluster_shift ∧ g.sectors_per_cluster_shift < 128) ∧
  (-128 ≤ g.number_of_fats ∧ g.number_of_fats < 128)

instance (g : ExfatFields) : Decidable g.InRange := by
  unfold ExfatFields.InRange; infer_instance

/-- The BootSectorParams dict the decoder produces for an exFAT sector
with the given field values, in table order. -/
def mkExfatDict (g : ExfatFields) : Dict :=
  [("partition_offset", .vint g.partition_offset),
   ("volume_length", .vint g.volume_length),
   ("fat_offset", .vint g.fat_offset),
   ("fat_length", .vint g.fat_length),
   ("cluster_heap_offset", .vint g.cluster_heap_offset),
   ("cluster_count", .vint g.cluster_count),
   ("first_cluster_of_root_directory", .vint g.first_cluster_of_root_directory),
   ("bytes_per_sector_shift", .vint g.bytes_per_sector_shift),
   ("sectors_per_cluster_shift", .vint g.sectors_per_cluster_shift),
   ("number_of_fats", .vint g.number_of_fats)]

/-- A synthetic 512-byte exFAT boot sector carrying the given field
values at the offsets of the exFAT table, written as one flat list:
64 leading zero bytes, the little-endian bytes of the fields at offsets
64..99, 8 zero bytes (offsets 100..107), the three shift/count bytes
(offsets 108..110), then 401 zero bytes. -/
def mkExfatSector (g : ExfatFields) : List Nat :=
  [0, 0, 0, 0, 0, 0, 0, 0, 0, 0, 0, 0, 0, 0, 0, 0, 0, 0, 0, 0, 0, 0, 0, 0, 0, 0, 0, 0, 0, 0, 0,
   0, 0, 0, 0, 0, 0, 0, 0, 0, 0, 0, 0, 0, 0, 0, 0, 0, 0, 0, 0, 0, 0, 0, 0, 0, 0, 0, 0, 0, 0, 0,
   0, 0, g.partition_offset % 256, g.partition_offset / 256 % 256,
   g.partition_offset / 65536 % 256, g.partition_offset / 16777216 % 256,
   g.partition_offset / 4294967296 % 256, g.partition_offset / 1099511627776 % 256,
   g.partition_offset / 281474976710656 % 256, g.partition_offset / 72057594037927936 % 256,
   g.volume_length % 256, g.volume_length / 256 % 256, g.volume_length / 65536 % 256,
   g.volume_length / 16777216 % 256, g.volume_length / 4294967296 % 256,
   g.volume_length / 1099511627776 % 256, g.volume_length / 281474976710656 % 256,
   g.volume_length / 72057594037927936 % 256, g.fat_offset % 256, g.fat_offset / 256 % 256,
   g.fat_offset / 65536 % 256, g.fat_offset / 16777216 % 256, g.fat_length % 256,
   g.fat_length / 256 % 256, g.fat_length / 65536 % 256, g.fat_length / 16777216 % 256,
   g.cluster_heap_offset % 256, g.cluster_heap_offset / 256 % 256,
   g.cluster_heap_offset / 65536 % 256, g.cluster_heap_offset / 16777216 % 256,
   g.cluster_count % 256, g.cluster_count / 256 % 256, g.cluster_count / 65536 % 256,
   g.cluster_count / 16777216 % 256, g.first_cluster_of_root_directory % 256,
   g.first_cluster_of_root_directory / 256 % 256,
   g.first_cluster_of_root_directory / 65536 % 256,
   g.first_cluster_of_root_directory / 16777216 % 256, 0, 0, 0, 0, 0, 0, 0, 0,
   (g.bytes_per_sector_shift.emod 256).toNat, (g.sectors_per_cluster_shift.emod 256).toNat,
   (g.number_of_fats.emod 256).toNat] ++
  List.replicate 401 0

/-- Convenience: the value a succeeding call binds to a key; `none` when
the call failed or the key is absent. -/
def resLookup (r : Except PyErr Dict) (key : String) : Option PyVal :=
  match r with
  | .ok m => dictGet m key
  | .error _ => none

/-- The per-FAT size selected by the source's fallback rule: the 16-bit
field when nonzero, else the 32-bit field. -/
def perFatVal (f : FatFields) : Int :=
  if f.fat_size_16 = 0 then (f.fat_size_32 : Int) else (f.fat_size_16 : Int)

/-- The total-sector count selected by the source's fallback rule: the
16-bit field when nonzero, else the 32-bit field. -/
def totalSectorsVal (f : FatFields) : Int :=
  if f.total_sectors_16 = 0 then (f.total_sectors_32 : Int) else (f.total_sectors_16 : Int)

/-- fat_sectors as computed by the source. -/
def fatSectorsVal (f : FatFields) : Int := f.numbers_of_FAT * perFatVal f

/-- root_directory_sectors as computed by the source. -/
def rootDirSectorsVal (f : FatFields) : Int :=
  Int.fdiv (32 * f.root_entity_count + f.bytes_per_sector - 1) f.bytes_per_sector

/-- data_start_sector as computed by the source. -/
def dataStartVal (f : FatFields) : Int :=
  (f.reserved_sectors_count : Int) + fatSectorsVal f + rootDirSectorsVal f

/-- data_sectors as computed by the source. -/
def dataSectorsVal (f : FatFields) : Int := totalSectorsVal f - dataStartVal f

/-- The full dict `calculate_parameters` returns on a FAT parameter set
with nonzero bytes_per_sector and sectors_per_cluster. -/
def geomDict (f : FatFields) (fmt : String) : Dict :=
  [("format_name", .vstr fmt),
   ("fat_start_sector", .vint f.reserved_sectors_count),
   ("fat_sectors", .vint (fatSectorsVal f)),
   ("root_directory_start_sector", .vint ((f.reserved_sectors_count : Int) + fatSectorsVal f)),
   ("root_directory_sectors", .vint (rootDirSectorsVal f)),
   ("data_start_sector", .vint (dataStartVal f)),
   ("data_sectors", .vint (dataSectorsVal f)),
   ("count_of_clusters", .vint (Int.fdiv (dataSectorsVal f) f.sectors_per_cluster))]

/-- A continuation byte lies in [128, 192). -/
lemma isCont_bounds (c : Nat) (h : isCont c = true) : 128 ≤ c ∧ c < 192 := by
  simp only [isCont, beq_iff_eq] at h
  omega

/-- Inversion for a successful multi-byte chunk: the code point is at
least 128, and the consumed bytes are all at least 128. -/
lemma utf8chunk_some (b : Nat) (rest : List Nat) (cp : Nat) (rem : List Nat)
    (h : utf8chunk b rest = some (cp, rem)) :
    128 ≤ cp ∧ ∃ k, rest = k ++ rem ∧ (∀ x ∈ k, 128 ≤ x) := by
  unfold utf8chunk at h
  by_cases h1 : b < 194
  · rw [if_pos h1] at h
    cases h
  rw [if_neg h1] at h
  by_cases h2 : b < 224
  · rw [if_pos h2] at h
    cases rest with
    | nil => cases h
    | cons c1 rest1 =>
      dsimp only at h
      by_cases hc1 : isCont c1 = true
      · rw [if_pos hc1] at h
        obtain ⟨hc1a, hc1b⟩ := isCont_bounds _ hc1
        cases h
        exact ⟨by omega, [c1], rfl, by intro x hx; simp at hx; omega⟩
      · rw [if_neg hc1] at h
        cases h
  rw [if_neg h2] at h
  by_cases h3 : b < 240
  · rw [if_pos h3] at h
    cases rest with
    | nil => cases h
    | cons c1 rest1 =>
      cases rest1 with
      | nil => cases h
      | cons c2 rest2 =>
        dsimp only at h
        by_cases hg : (isCont c1 && isCont c2 && utf8guard3 b c1) = true
        · rw [if_pos hg] at h
          simp only [Bool.and_eq_true] at hg
          obtain ⟨⟨hc1, hc2⟩, hg3⟩ := hg
          obtain ⟨hc1a, hc1b⟩ := isCont_bounds _ hc1
          obtain ⟨hc2a, hc2b⟩ := isCont_bounds _ hc2
          have hcp : 128 ≤ (b - 224) * 4096 + (c1 - 128) * 64 + (c2 - 128) := by
            simp only [utf8guard3, Bool.and_eq_true, Bool.or_eq_true, bne_iff_ne, ne_eq,
              Nat.ble_eq, Nat.blt_eq] at hg3
            obtain ⟨hg3a, _⟩ := hg3
            by_cases hb224 : b = 224
            · subst hb224
              rcases hg3a with h | h
              · omega
              · omega
            · omega
          cases h
          exact ⟨hcp, [c1, c2], rfl, by intro x hx; simp at hx; omega⟩
        · rw [if_neg hg] at h
          cases h
  rw [if_neg h3] at h
  by_cases h4 : b < 245
  · rw [if_pos h4] at h
    cases rest with
    | nil => cases h
    | cons c1 rest1 =>
      cases rest1 with
      | nil => cases h
      | cons c2 rest2 =>
        cases rest2 with
        | nil => cases h
        | cons c3 rest3 =>
          dsimp only at h
          by_cases hg : (isCont c1 && isCont c2 && isCont c3 && utf8guard4 b c1) = true
          · rw [if_pos hg] at h
            simp only [Bool.and_eq_true] at hg
            obtain ⟨⟨⟨hc1, hc2⟩, hc3⟩, hg4⟩ := hg
            obtain ⟨hc1a, hc1b⟩ := isCont_bounds _ hc1
            obtain ⟨hc2a, hc2b⟩ := isCont_bounds _ hc2
            obtain ⟨hc3a, hc3b⟩ := isCont_bounds _ hc3
            have hcp :
                128 ≤ (b - 240) * 262144 + (c1 - 128) * 4096 + (c2 - 128) * 64 + (c3 - 128) := by
              simp only [utf8guard4, Bool.and_eq_true, Bool.or_eq_true, bne_iff_ne, ne_eq,
                Nat.ble_eq, Nat.blt_eq] at hg4
              obtain ⟨hg4a, _⟩ := hg4
              by_cases hb240 : b = 240
              · subst hb240
                rcases hg4a with h | h
                · omega
                · omega
              · omega
            cases h
            exact ⟨hcp, [c1, c2, c3], rfl, by intro x hx; simp at hx; omega⟩
          · rw [if_neg hg] at h
            cases h
  · rw [if_neg h4] at h
    cases h

/-- The decoder ignores the exact step budget as long as it covers the
input length. -/
lemma utf8decodeAux_fuel : ∀ f1 : Nat, ∀ l : List Nat, ∀ f2 : Nat,
    l.length ≤ f1 → l.length ≤ f2 → utf8decodeAux f1 l = utf8decodeAux f2 l := by
  intro f1
  induction f1 with
  | zero =>
    intro l f2 h1 _
    have : l = [] := List.eq_nil_of_length_eq_zero (by omega)
    subst this
    cases f2 <;> rfl
  | succ g1 ih =>
    intro l f2 h1 h2
    cases l with
    | nil => cases f2 <;> rfl
    | cons b rest =>
      cases f2 with
      | zero => simp at h2
      | succ g2 =>
        rw [utf8decodeAux, utf8decodeAux]
        simp only [List.length_cons] at h1 h2
        by_cases hb : b < 128
        · rw [if_pos hb, if_pos hb, ih rest g2 (by omega) (by omega)]
        · rw [if_neg hb, if_neg hb]
          cases hc : utf8chunk b rest with
          | none => rfl
          | some v =>
            obtain ⟨cp, rem⟩ := v
            obtain ⟨_, k, hk, _⟩ := utf8chunk_some b rest cp rem hc
            have hrem : rem.length ≤ rest.length := by
              subst hk
              simp
            dsimp only
            rw [ih rem g2 (by omega) (by omega)]

/-- Unfolding the decoder over an ASCII head byte. -/
lemma utf8decode_cons_ascii (b : Nat) (rest : List Nat) (hb : b < 128) :
    utf8decode (b :: rest) = (utf8decode rest).map fun cs => b :: cs := by
  unfold utf8decode
  rw [List.length_cons, utf8decodeAux, if_pos hb]

/-- Unfolding the decoder over a non-ASCII head byte. -/
lemma utf8decode_cons_hi (b : Nat) (rest : List Nat) (hb : ¬ b < 128) :
    utf8decode (b :: rest) =
      match utf8chunk b rest with
      | some (cp, rem) => (utf8decode rem).map fun cs => cp :: cs
      | none => none := by
  unfold utf8decode
  rw [List.length_cons, utf8decodeAux, if_neg hb]
  cases hc : utf8chunk b rest with
  | none => rfl
  | some v =>
    obtain ⟨cp, rem⟩ := v
    obtain ⟨_, k, hk, _⟩ := utf8chunk_some b rest cp rem hc
    have hrem : rem.length ≤ rest.length := by
      subst hk
      simp
    dsimp only
    rw [utf8decodeAux_fuel rest.length rem rem.length (by omega) (by omega)]

/-- An all-ASCII pattern is an initial segment of the decoded code points
exactly when it is an initial segment of the input bytes. -/
lemma startsWith_utf8 (p : List Nat) (hp : ∀ x ∈ p, x < 128) :
    ∀ bs cs : List Nat, utf8decode bs = some cs → startsWith p cs = startsWith p bs := by
  induction p with
  | nil => intro bs cs _; rfl
  | cons q ps ih =>
    intro bs cs h
    have hq : q < 128 := hp q (by simp)
    have hps : ∀ x ∈ ps, x < 128 := fun x hx => hp x (by simp [hx])
    cases bs with
    | nil =>
      have : cs = [] := by
        simpa [utf8decode, utf8decodeAux] using h.symm
      subst this
      rfl
    | cons b rest =>
      by_cases hb : b < 128
      · rw [utf8decode_cons_ascii b rest hb] at h
        cases hr : utf8decode rest with
        | none => rw [hr] at h; cases h
        | some cs' =>
          rw [hr] at h
          simp only [Option.map_some'] at h
          cases h
          simp only [startsWith]
          rw [ih hps rest cs' hr]
      · rw [utf8decode_cons_hi b rest hb] at h
        cases hc : utf8chunk b rest with
        | none => rw [hc] at h; cases h
        | some v =>
          obtain ⟨cp, rem⟩ := v
          rw [hc] at h
          dsimp only at h
          cases hr : utf8decode rem with
          | none => rw [hr] at h; cases h
          | some cs' =>
            rw [hr] at h
            simp only [Option.map_some'] at h
            cases h
            obtain ⟨hcp, _⟩ := utf8chunk_some b rest cp rem hc
            simp only [startsWith]
            have e1 : (q == b) = false := by
              simp only [beq_eq_false_iff_ne, ne_eq]
              omega
            have e2 : (q == cp) = false := by
              simp only [beq_eq_false_iff_ne, ne_eq]
              omega
            rw [e1, e2]
            simp

/-- A pattern with an ASCII head cannot start inside a run of bytes that
are all at least 128; prepending such a run does not change containment. -/
lemma containsSeq_hi_append (q : Nat) (ps t : List Nat) (hq : q < 128) :
    ∀ k : List Nat, (∀ x ∈ k, 128 ≤ x) →
    containsSeq (q :: ps) (k ++ t) = containsSeq (q :: ps) t := by
  intro k
  induction k with
  | nil => intro _; rfl
  | cons x k' ihk =>
    intro hk
    have hx : 128 ≤ x := hk x (by simp)
    have hk' : ∀ y ∈ k', 128 ≤ y := fun y hy => hk y (by simp [hy])
    simp only [List.cons_append, containsSeq, startsWith]
    have e1 : (q == x) = false := by
      simp only [beq_eq_false_iff_ne, ne_eq]
      omega
    rw [e1]
    simp only [Bool.false_and, Bool.false_or]
    exact ihk hk'

/-- An all-ASCII pattern occurs in the decoded code points exactly when
it occurs in the input bytes. -/
lemma containsSeq_utf8 : ∀ n : Nat, ∀ bs cs : List Nat, bs.length ≤ n →
    utf8decode bs = some cs → ∀ q ps, (∀ x ∈ q :: ps, x < 128) →
    containsSeq (q :: ps) cs = containsSeq (q :: ps) bs := by
  intro n
  induction n with
  | zero =>
    intro bs cs h1 h q ps _
    have : bs = [] := List.eq_nil_of_length_eq_zero (by omega)
    subst this
    have : cs = [] := by
      simpa [utf8decode, utf8decodeAux] using h.symm
    subst this
    rfl
  | succ m ih =>
    intro bs cs h1 h q ps hp
    have hq : q < 128 := hp q (by simp)
    cases bs with
    | nil =>
      have : cs = [] := by
        simpa [utf8decode, utf8decodeAux] using h.symm
      subst this
      rfl
    | cons b rest =>
      simp only [List.length_cons] at h1
      by_cases hb : b < 128
      · rw [utf8decode_cons_ascii b rest hb] at h
        cases hr : utf8decode rest with
        | none => rw [hr] at h; cases h
        | some cs' =>
          rw [hr] at h
          simp only [Option.map_some'] at h
          cases h
          simp only [containsSeq]
          rw [startsWith_utf8 (q :: ps) hp (b :: rest) (b :: cs')
            (by rw [utf8decode_cons_ascii b rest hb, hr]; rfl)]
          rw [ih rest cs' (by omega) hr q ps hp]
      · rw [utf8decode_cons_hi b rest hb] at h
        cases hc : utf8chunk b rest with
        | none => rw [hc] at h; cases h
        | some v =>
          obtain ⟨cp, rem⟩ := v
          rw [hc] at h
          dsimp only at h
          cases hr : utf8decode rem with
          | none => rw [hr] at h; cases h
          | some cs' =>
            rw [hr] at h
            simp only [Option.map_some'] at h
            cases h
            obtain ⟨hcp, k, hk, hkhi⟩ := utf8chunk_some b rest cp rem hc
            have hrem : rem.length ≤ rest.length := by
              subst hk
              simp
            simp only [containsSeq, startsWith]
            have e2 : (q == cp) = false := by
              simp only [beq_eq_false_iff_ne, ne_eq]
              omega
            have e1 : (q == b) = false := by
              simp only [beq_eq_false_iff_ne, ne_eq]
              omega
            rw [e1, e2]
            simp only [Bool.false_and, Bool.false_or]
            rw [ih rem cs' (by omega) hr q ps hp]
            subst hk
            exact (containsSeq_hi_append q ps rem hq k hkhi).symm

/-- Floored division of `a + b - 1` by `b` is the ceiling of `a / b` for
nonnegative `a` and positive `b`. -/
lemma fdiv_pred_eq_ceil (a b : ℤ) (hb : 0 < b) :
    Int.fdiv (a + b - 1) b = ⌈(a : ℚ) / (b : ℚ)⌉ := by
  rw [Int.fdiv_eq_ediv _ (le_of_lt hb)]
  symm
  rw [Int.ceil_eq_iff]
  have hq : (0 : ℚ) < (b : ℚ) := by exact_mod_cast hb
  have h1 : (a + b - 1) / b * b ≤ a + b - 1 := Int.ediv_mul_le _ (by omega)
  have h2 : a + b - 1 < ((a + b - 1) / b + 1) * b := Int.lt_ediv_add_one_mul_self _ hb
  have e1 : ((a + b - 1) / b + 1) * b = (a + b - 1) / b * b + b := by ring
  have e2 : ((a + b - 1) / b - 1) * b = (a + b - 1) / b * b - b := by ring
  have h3 : a ≤ (a + b - 1) / b * b := by omega
  have h4 : ((a + b - 1) / b - 1) * b < a := by omega
  constructor
  · rw [lt_div_iff₀ hq]
    exact_mod_cast h4
  · rw [div_le_iff₀ hq]
    exact_mod_cast h3

/-- Closed form of `calculate_parameters` on a decoded FAT parameter set
with nonzero divisors. -/
lemma calc_mkBootDict (f : FatFields) (fmt : String)
    (hb : f.bytes_per_sector ≠ 0) (hs : f.sectors_per_cluster ≠ 0) :
    calculate_parameters (mkBootDict f) fmt = .ok (geomDict f fmt) := by
  have g1 : getI (mkBootDict f) "reserved_sectors_count" =
    .ok (f.reserved_sectors_count : Int) := rfl
  have g2 : getI (mkBootDict f) "numbers_of_FAT" = .ok f.numbers_of_FAT := rfl
  have g3 : getI (mkBootDict f) "fat_size_16" = .ok (f.fat_size_16 : Int) := rfl
  have g4 : getI (mkBootDict f) "fat_size_32" = .ok (f.fat_size_32 : Int) := rfl
  have g5 : getI (mkBootDict f) "root_entity_count" = .ok (f.root_entity_count : Int) := rfl
  have g6 : getI (mkBootDict f) "bytes_per_sector" = .ok (f.bytes_per_sector : Int) := rfl
  have g7 : getI (mkBootDict f) "total_sectors_16" = .ok (f.total_sectors_16 : Int) := rfl
  have g8 : getI (mkBootDict f) "total_sectors_32" = .ok (f.total_sectors_32 : Int) := rfl
  have g9 : getI (mkBootDict f) "sectors_per_cluster" = .ok f.sectors_per_cluster := rfl
  have hbz : ¬ ((f.bytes_per_sector : Int) = 0) := by exact_mod_cast hb
  have hsz : ¬ (f.sectors_per_cluster = (0 : Int)) := hs
  simp only [calculate_parameters, g1, g2, g3, g4, g5, g6, g7, g8, g9,
    bind, Except.bind, pure, Except.pure, if_neg hbz, if_neg hsz,
    geomDict, fatSectorsVal, perFatVal, rootDirSectorsVal, dataStartVal, dataSectorsVal,
    totalSectorsVal]
  by_cases h16 : f.fat_size_16 = 0 <;> by_cases hts : f.total_sectors_16 = 0 <;>
    simp [h16, hts]

/-- `calculate_parameters` raises ZeroDivisionError whenever
bytes_per_sector or sectors_per_cluster is zero. -/
lemma calc_mkBootDict_zero (f : FatFields) (fmt : String)
    (h : f.bytes_per_sector = 0 ∨ f.sectors_per_cluster = 0) :
    calculate_parameters (mkBootDict f) fmt = .error .zeroDivisionError := by
  have g1 : getI (mkBootDict f) "reserved_sectors_count" =
    .ok (f.reserved_sectors_count : Int) := rfl
  have g2 : getI (mkBootDict f) "numbers_of_FAT" = .ok f.numbers_of_FAT := rfl
  have g3 : getI (mkBootDict f) "fat_size_16" = .ok (f.fat_size_16 : Int) := rfl
  have g4 : getI (mkBootDict f) "fat_size_32" = .ok (f.fat_size_32 : Int) := rfl
  have g5 : getI (mkBootDict f) "root_entity_count" = .ok (f.root_entity_count : Int) := rfl
  have g6 : getI (mkBootDict f) "bytes_per_sector" = .ok (f.bytes_per_sector : Int) := rfl
  have g7 : getI (mkBootDict f) "total_sectors_16" = .ok (f.total_sectors_16 : Int) := rfl
  have g8 : getI (mkBootDict f) "total_sectors_32" = .ok (f.total_sectors_32 : Int) := rfl
  have g9 : getI (mkBootDict f) "sectors_per_cluster" = .ok f.sectors_per_cluster := rfl
  by_cases hb : f.bytes_per_sector = 0
  · have hbz : (f.bytes_per_sector : Int) = 0 := by exact_mod_cast hb
    simp only [calculate_parameters, g1, g2, g3, g4, g5, g6, g7, g8, g9,
      bind, Except.bind, pure, Except.pure, if_pos hbz]
    by_cases h16 : f.fat_size_16 = 0 <;> simp [h16]
  · have hs : f.sectors_per_cluster = 0 := h.resolve_left hb
    have hbz : ¬ ((f.bytes_per_sector : Int) = 0) := by exact_mod_cast hb
    simp only [calculate_parameters, g1, g2, g3, g4, g5, g6, g7, g8, g9,
      bind, Except.bind, pure, Except.pure, if_neg hbz, if_pos hs]
    by_cases h16 : f.fat_size_16 = 0 <;> by_cases hts : f.total_sectors_16 = 0 <;>
      simp [h16, hts, hs]

/-- Length of a Python slice. -/
lemma pySlice_length (data : List Nat) (s e : Nat) :
    (pySlice data s e).length = min (e - s) (data.length - s) := by
  simp [pySlice]

/-- struct.unpack succeeds on a buffer of exactly the format width. -/
lemma unpackEnc_ok (enc : Enc) (l : List Nat) (h : l.length = encSize enc) :
    ∃ v, unpackEnc enc l = .ok v := by
  cases enc <;> exact ⟨_, by rw [unpackEnc, if_pos h]⟩

/-- The decoding loop succeeds whenever every table entry's field range
lies inside the buffer, and binds exactly the table's field names in
order. -/
lemma decodeFields_ok (data : List Nat) :
    ∀ table : List (String × Nat × Nat × Enc),
    (∀ entry ∈ table, entry.2.1 ≤ entry.2.2.1 ∧ entry.2.2.1 ≤ data.length ∧
      entry.2.2.1 - entry.2.1 = encSize entry.2.2.2) →
    ∃ m, decodeFields data table = .ok m ∧ m.map Prod.fst = table.map Prod.fst := by
  intro table
  induction table with
  | nil => intro _; exact ⟨[], rfl, rfl⟩
  | cons entry rest ih =>
    intro hyp
    obtain ⟨name, s, e, enc⟩ := entry
    obtain ⟨hse, hlen, hwidth⟩ := hyp (name, s, e, enc) (by simp)
    dsimp only at hse hlen hwidth
    have hslice : ((pySlice data s e)).length = encSize enc := by
      rw [pySlice_length]
      omega
    obtain ⟨v, hv⟩ := unpackEnc_ok enc _ hslice
    obtain ⟨m, hm, hnames⟩ := ih (fun x hx => hyp x (by simp [hx]))
    refine ⟨(name, .vint v) :: m, ?_, ?_⟩
    · rw [decodeFields, hv, hm]
    · simp [hnames]
lemma unpack_u16 (v : Nat) (hv : v < 65536) : unpackEnc .u16 (u16bytes v) = .ok (v : Int) := by
  rw [unpackEnc, if_pos (by rfl)]
  simp only [u16bytes, List.getD_cons_zero, List.getD_cons_succ, Except.ok.injEq, Nat.cast_inj]
  omega

lemma unpack_i8 (v : Int) (h1 : -128 ≤ v) (h2 : v < 128) :
    unpackEnc .i8 (i8bytes v) = .ok v := by
  rw [unpackEnc, if_pos (by rfl)]
  simp only [i8bytes, List.getD_cons_zero]
  have he1 : 0 ≤ v.emod 256 := Int.emod_nonneg v (by norm_num)
  have he2 : v.emod 256 < 256 := Int.emod_lt_of_pos v (by norm_num)
  have he3 : v.emod 256 = v - 256 * (v.ediv 256) := Int.emod_def v 256
  have he4 : v.ediv 256 = if 0 ≤ v then 0 else -1 := by
    split
    · apply Int.ediv_eq_zero_of_lt <;> omega
    · omega
  by_cases hc : (v.emod 256).toNat < 128
  · rw [if_pos hc]
    simp only [Except.ok.injEq]
    omega
  · rw [if_neg hc]
    simp only [Except.ok.injEq]
    omega

lemma unpack_u32 (v : Nat) (hv : v < 4294967296) :
    unpackEnc .u32 (u32bytes v) = .ok (v : Int) := by
  rw [unpackEnc, if_pos (by rfl)]
  simp only [u32bytes, List.getD_cons_zero, List.getD_cons_succ, Except.ok.injEq, Nat.cast_inj]
  omega

lemma unpack_u64 (v : Nat) (hv : v < 18446744073709551616) :
    unpackEnc .u64 (u64bytes v) = .ok (v : Int) := by
  rw [unpackEnc, if_pos (by rfl)]
  simp only [u64bytes, List.getD_cons_zero, List.getD_cons_succ, Except.ok.injEq, Nat.cast_inj]
  omega

lemma fat_round_trip (f : FatFields) (hf : f.InRange) :
    get_boot_sector_params (mkFatSector f) "fat" = .ok (mkBootDict f) := by
  obtain ⟨hbps, ⟨hspc1, hspc2⟩, hrsc, ⟨hnf1, hnf2⟩, hrec, hts16, ⟨hm1, hm2⟩, hfs16,
    hspt, hnh, hnhs, hts32, hfs32⟩ := hf
  have s1 : pySlice (mkFatSector f) 11 13 = u16bytes f.bytes_per_sector := rfl
  have s2 : pySlice (mkFatSector f) 13 14 = i8bytes f.sectors_per_cluster := rfl
  have s3 : pySlice (mkFatSector f) 14 16 = u16bytes f.reserved_sectors_count := rfl
  have s4 : pySlice (mkFatSector f) 16 17 = i8bytes f.numbers_of_FAT := rfl
  have s5 : pySlice (mkFatSector f) 17 19 = u16bytes f.root_entity_count := rfl
  have s6 : pySlice (mkFatSector f) 19 21 = u16bytes f.total_sectors_16 := rfl
  have s7 : pySlice (mkFatSector f) 21 22 = i8bytes f.media := rfl
  have s8 : pySlice (mkFatSector f) 22 24 = u16bytes f.fat_size_16 := rfl
  have s9 : pySlice (mkFatSector f) 24 26 = u16bytes f.sectors_per_track := rfl
  have s10 : pySlice (mkFatSector f) 26 28 = u16bytes f.number_of_heads := rfl
  have s11 : pySlice (mkFatSector f) 28 32 = u32bytes f.number_of_hidden_sectors := rfl
  have s12 : pySlice (mkFatSector f) 32 36 = u32bytes f.total_sectors_32 := rfl
  have s13 : pySlice (mkFatSector f) 36 40 = u32bytes f.fat_size_32 := rfl
  show decodeFields (mkFatSector f) OFFSET_TO_FIELD_MAP = .ok (mkBootDict f)
  rw [OFFSET_TO_FIELD_MAP]
  simp only [decodeFields, s1, s2, s3, s4, s5, s6, s7, s8, s9, s10, s11, s12, s13,
    unpack_u16 _ hbps, unpack_i8 _ hspc1 hspc2, unpack_u16 _ hrsc,
    unpack_i8 _ hnf1 hnf2, unpack_u16 _ hrec, unpack_u16 _ hts16,
    unpack_i8 _ hm1 hm2, unpack_u16 _ hfs16, unpack_u16 _ hspt, unpack_u16 _ hnh,
    unpack_u32 _ hnhs, unpack_u32 _ hts32, unpack_u32 _ hfs32]
  rfl

lemma exfat_round_trip (g : ExfatFields) (hg : g.InRange) :
    get_boot_sector_params (mkExfatSector g) "exfat" = .ok (mkExfatDict g) := by
  obtain ⟨hpo, hvl, hfo, hfl, hcho, hcc, hfcrd, ⟨hb1, hb2⟩, ⟨hs1, hs2⟩, ⟨hn1, hn2⟩⟩ := hg
  have s1 : pySlice (mkExfatSector g) 64 72 = u64bytes g.partition_offset := rfl
  have s2 : pySlice (mkExfatSector g) 72 80 = u64bytes g.volume_length := rfl
  have s3 : pySlice (mkExfatSector g) 80 84 = u32bytes g.fat_offset := rfl
  have s4 : pySlice (mkExfatSector g) 84 88 = u32bytes g.fat_length := rfl
  have s5 : pySlice (mkExfatSector g) 88 92 = u32bytes g.cluster_heap_offset := rfl
  have s6 : pySlice (mkExfatSector g) 92 96 = u32bytes g.cluster_count := rfl
  have s7 : pySlice (mkExfatSector g) 96 100 = u32bytes g.first_cluster_of_root_directory := rfl
  have s8 : pySlice (mkExfatSector g) 108 109 = i8bytes g.bytes_per_sector_shift := rfl
  have s9 : pySlice (mkExfatSector g) 109 110 = i8bytes g.sectors_per_cluster_shift := rfl
  have s10 : pySlice (mkExfatSector g) 110 111 = i8bytes g.number_of_fats := rfl
  show decodeFields (mkExfatSector g) EXFAT_OFFSET_TO_FIELD_MAP = .ok (mkExfatDict g)
  rw [EXFAT_OFFSET_TO_FIELD_MAP]
  simp only [decodeFields, s1, s2, s3, s4, s5, s6, s7, s8, s9, s10,
    unpack_u64 _ hpo, unpack_u64 _ hvl, unpack_u32 _ hfo, unpack_u32 _ hfl,
    unpack_u32 _ hcho, unpack_u32 _ hcc, unpack_u32 _ hfcrd,
    unpack_i8 _ hb1 hb2, unpack_i8 _ hs1 hs2, unpack_i8 _ hn1 hn2]
  rfl
/-- C1: for every FAT boot-sector parameter set, compute_geometry uses
fat_size_16 when nonzero (else fat_size_32) as the per-FAT size in
fat_sectors, and total_sectors_16 when nonzero (else total_sectors_32) as
the total-sector count that data_sectors subtracts the data start from. -/
theorem C1_sixteen_bit_precedence (f : FatFields)
    (hb : f.bytes_per_sector ≠ 0) (hs : f.sectors_per_cluster ≠ 0) :
    ∃ m, calculate_parameters (mkBootDict f) "fat" = .ok m ∧
      dictGet m "fat_sectors" = some (.vint (f.numbers_of_FAT *
        (if f.fat_size_16 ≠ 0 then (f.fat_size_16 : Int) else (f.fat_size_32 : Int)))) ∧
      ∃ ds : Int, dictGet m "data_start_sector" = some (.vint ds) ∧
        dictGet m "data_sectors" = some (.vint
          ((if f.total_sectors_16 ≠ 0 then (f.total_sectors_16 : Int)
            else (f.total_sectors_32 : Int)) - ds)) := by
  refine ⟨geomDict f "fat", calc_mkBootDict f "fat" hb hs, ?_, dataStartVal f, rfl, ?_⟩
  · have e : dictGet (geomDict f "fat") "fat_sectors" =
        some (.vint (fatSectorsVal f)) := rfl
    rw [e]
    simp only [Option.some.injEq, PyVal.vint.injEq]
    by_cases h16 : f.fat_size_16 = 0 <;> simp [fatSectorsVal, perFatVal, h16]
  · have e : dictGet (geomDict f "fat") "data_sectors" =
        some (.vint (dataSectorsVal f)) := rfl
    rw [e]
    simp only [Option.some.injEq, PyVal.vint.injEq]
    by_cases hts : f.total_sectors_16 = 0 <;> simp [dataSectorsVal, totalSectorsVal, hts]

/-- Witness for C1 at the concrete FAT32-style parameter set of the
spec's end-to-end scenario. -/
theorem C1_sixteen_bit_precedence_witness :
    ∃ m, calculate_parameters
        (mkBootDict ⟨512, 4, 32, 2, 0, 0, 0, 0, 0, 0, 0, 2000000, 1000⟩) "fat" = .ok m ∧
      dictGet m "fat_sectors" = some (.vint 2000) := by
  obtain ⟨m, h1, h2, _⟩ :=
    C1_sixteen_bit_precedence ⟨512, 4, 32, 2, 0, 0, 0, 0, 0, 0, 0, 2000000, 1000⟩
      (by decide) (by decide)
  refine ⟨m, h1, ?_⟩
  rw [h2]
  decide

/-- C2: the end-to-end scenario of the spec: the FAT32-style parameter set
with fat_size_32 = 1000 and total_sectors_32 = 2000000 yields exactly the
seven derived values claimed. -/
theorem C2_end_to_end_scenario :
    resLookup (calculate_parameters
      (mkBootDict ⟨512, 4, 32, 2, 0, 0, 0, 0, 0, 0, 0, 2000000, 1000⟩) "fat")
      "fat_start_sector" = some (.vint 32) ∧
    resLookup (calculate_parameters
      (mkBootDict ⟨512, 4, 32, 2, 0, 0, 0, 0, 0, 0, 0, 2000000, 1000⟩) "fat")
      "fat_sectors" = some (.vint 2000) ∧
    resLookup (calculate_parameters
      (mkBootDict ⟨512, 4, 32, 2, 0, 0, 0, 0, 0, 0, 0, 2000000, 1000⟩) "fat")
      "root_directory_start_sector" = some (.vint 2032) ∧
    resLookup (calculate_parameters
      (mkBootDict ⟨512, 4, 32, 2, 0, 0, 0, 0, 0, 0, 0, 2000000, 1000⟩) "fat")
      "root_directory_sectors" = some (.vint 0) ∧
    resLookup (calculate_parameters
      (mkBootDict ⟨512, 4, 32, 2, 0, 0, 0, 0, 0, 0, 0, 2000000, 1000⟩) "fat")
      "data_start_sector" = some (.vint 2032) ∧
    resLookup (calculate_parameters
      (mkBootDict ⟨512, 4, 32, 2, 0, 0, 0, 0, 0, 0, 0, 2000000, 1000⟩) "fat")
      "data_sectors" = some (.vint 1997968) ∧
    resLookup (calculate_parameters
      (mkBootDict ⟨512, 4, 32, 2, 0, 0, 0, 0, 0, 0, 0, 2000000, 1000⟩) "fat")
      "count_of_clusters" = some (.vint 499492) := by
  decide

/-- C3: whenever bytes_per_sector is nonzero and compute_geometry
produces a result, its root_directory_sectors equals the rational ceiling
of 32 * root_entity_count / bytes_per_sector; in particular 512 entries
at 512 bytes per sector give 32 sectors, and 0 entries give 0. -/
theorem C3_root_directory_ceiling (f : FatFields) (hb : f.bytes_per_sector ≠ 0) :
    (∀ m, calculate_parameters (mkBootDict f) "fat" = .ok m →
      dictGet m "root_directory_sectors" =
        some (.vint ⌈(32 * (f.root_entity_count : ℚ)) / (f.bytes_per_sector : ℚ)⌉)) ∧
    (f.root_entity_count = 512 → f.bytes_per_sector = 512 →
      ∀ m, calculate_parameters (mkBootDict f) "fat" = .ok m →
        dictGet m "root_directory_sectors" = some (.vint 32)) ∧
    (f.root_entity_count = 0 →
      ∀ m, calculate_parameters (mkBootDict f) "fat" = .ok m →
        dictGet m "root_directory_sectors" = some (.vint 0)) := by
  have main : ∀ m, calculate_parameters (mkBootDict f) "fat" = .ok m →
      dictGet m "root_directory_sectors" =
        some (.vint ⌈(32 * (f.root_entity_count : ℚ)) / (f.bytes_per_sector : ℚ)⌉) := by
    intro m hm
    by_cases hs : f.sectors_per_cluster = 0
    · rw [calc_mkBootDict_zero f "fat" (Or.inr hs)] at hm
      cases hm
    · rw [calc_mkBootDict f "fat" hb hs] at hm
      injection hm with hm
      subst hm
      have e : dictGet (geomDict f "fat") "root_directory_sectors" =
          some (.vint (rootDirSectorsVal f)) := rfl
      rw [e]
      simp only [Option.some.injEq, PyVal.vint.injEq]
      have hcast : rootDirSectorsVal f =
          Int.fdiv (32 * (f.root_entity_count : Int) + (f.bytes_per_sector : Int) - 1)
            (f.bytes_per_sector : Int) := by
        unfold rootDirSectorsVal
        norm_num
      rw [hcast, fdiv_pred_eq_ceil _ _ (by exact_mod_cast Nat.pos_of_ne_zero hb)]
      norm_num
  refine ⟨main, ?_, ?_⟩
  · intro h512 hb512 m hm
    have := main m hm
    rw [h512, hb512] at this
    rw [this]
    norm_num
  · intro h0 m hm
    have := main m hm
    rw [h0] at this
    rw [this]
    norm_num

/-- Witness for C3 at a concrete FAT16-style parameter set with 512 root
entries and 512-byte sectors. -/
theorem C3_root_directory_ceiling_witness :
    dictGet [("format_name", .vstr "fat"), ("fat_start_sector", .vint 32),
      ("fat_sectors", .vint 20), ("root_directory_start_sector", .vint 52),
      ("root_directory_sectors", .vint 32), ("data_start_sector", .vint 84),
      ("data_sectors", .vint 16), ("count_of_clusters", .vint 4)]
      "root_directory_sectors" = some (.vint 32) :=
  (C3_root_directory_ceiling ⟨512, 4, 32, 2, 512, 100, 0, 10, 0, 0, 0, 0, 0⟩
    (by decide)).2.1 rfl rfl _ (by decide)

/-- C6: a zero bytes_per_sector or sectors_per_cluster makes
compute_geometry fail with ZeroDivisionError. -/
theorem C6_division_by_zero (f : FatFields)
    (h : f.bytes_per_sector = 0 ∨ f.sectors_per_cluster = 0) :
    calculate_parameters (mkBootDict f) "fat" = .error .zeroDivisionError :=
  calc_mkBootDict_zero f "fat" h

/-- Witness for C6: an otherwise valid sector with sectors_per_cluster = 0. -/
theorem C6_division_by_zero_witness :
    calculate_parameters (mkBootDict ⟨512, 0, 32, 2, 0, 100, 0, 10, 0, 0, 0, 0, 0⟩) "fat" =
      .error .zeroDivisionError :=
  C6_division_by_zero ⟨512, 0, 32, 2, 0, 100, 0, 10, 0, 0, 0, 0, 0⟩ (Or.inr rfl)
/-- C4 counterexample: decode has no 512-byte length check; on a 511-byte
and on a 513-byte buffer it succeeds and returns the full 13-field
mapping instead of failing with TruncatedSector. -/
theorem C4_counterexample :
    get_boot_sector_params (List.replicate 511 0) "fat" =
      .ok (mkBootDict ⟨0, 0, 0, 0, 0, 0, 0, 0, 0, 0, 0, 0, 0⟩) ∧
    get_boot_sector_params (List.replicate 513 0) "fat" =
      .ok (mkBootDict ⟨0, 0, 0, 0, 0, 0, 0, 0, 0, 0, 0, 0, 0⟩) := by
  decide

/-- C4 amended: decode never checks for a 512-byte buffer; any buffer
covering the highest FAT field offset (40 bytes) decodes successfully to
the full mapping of all 13 table fields. -/
theorem C4_no_length_check (data : List Nat) (h : 40 ≤ data.length) :
    ∃ m, get_boot_sector_params data "fat" = .ok m ∧
      m.map Prod.fst = OFFSET_TO_FIELD_MAP.map Prod.fst := by
  have hcond : ∀ entry ∈ OFFSET_TO_FIELD_MAP, entry.2.1 ≤ entry.2.2.1 ∧
      entry.2.2.1 ≤ data.length ∧ entry.2.2.1 - entry.2.1 = encSize entry.2.2.2 := by
    intro entry he
    fin_cases he <;> refine ⟨by decide, ?_, by decide⟩ <;> dsimp only <;> omega
  obtain ⟨m, hm, hn⟩ := decodeFields_ok data OFFSET_TO_FIELD_MAP hcond
  exact ⟨m, by rw [show get_boot_sector_params data "fat" =
    decodeFields data OFFSET_TO_FIELD_MAP from rfl, hm], hn⟩

/-- Witness for the amended C4 at a concrete 42-byte buffer. -/
theorem C4_no_length_check_witness :
    ∃ m, get_boot_sector_params (List.replicate 42 7) "fat" = .ok m ∧
      m.map Prod.fst = OFFSET_TO_FIELD_MAP.map Prod.fst :=
  C4_no_length_check (List.replicate 42 7) (by decide)
/-- C5 counterexample: detect_format is not total: a 512-byte sector
whose [3:11) region is 0xFF bytes makes it fail with UnicodeDecodeError
instead of returning FAT. -/
theorem C5_counterexample :
    get_drive_format (List.replicate 512 255) = .error .unicodeDecodeError ∧
    get_drive_format (List.replicate 512 255) ≠ .ok "fat" := by
  decide

/-- C5 amended: on a 512-byte sector whose [3:11) region decodes as UTF-8
(ASCII included), detect_format returns EXFAT exactly when the raw region
contains the byte string "EXFAT", and FAT otherwise; when the region is
not valid UTF-8 it fails with UnicodeDecodeError rather than returning
FAT. -/
theorem C5_detector (data : List Nat) (h : data.length = 512) :
    (∀ cs, utf8decode (pySlice data 3 11) = some cs →
      get_drive_format data =
        .ok (if containsSeq exfatPat (pySlice data 3 11) then "exfat" else "fat")) ∧
    (utf8decode (pySlice data 3 11) = none →
      get_drive_format data = .error .unicodeDecodeError) := by
  have hlen : (pySlice data 3 11).length = 8 := by
    rw [pySlice_length]
    omega
  constructor
  · intro cs hcs
    rw [show get_drive_format data =
      (if (pySlice data 3 11).length = 8 then
        match utf8decode (pySlice data 3 11) with
        | none => .error .unicodeDecodeError
        | some cs =>
          if containsSeq exfatPat cs then .ok "exfat" else .ok "fat"
      else .error .structError) from rfl]
    rw [if_pos hlen, hcs]
    dsimp only
    rw [show exfatPat = 69 :: [88, 70, 65, 84] from rfl]
    rw [containsSeq_utf8 (pySlice data 3 11).length (pySlice data 3 11) cs le_rfl hcs
      69 [88, 70, 65, 84] (by decide)]
    split <;> rfl
  · intro hnone
    rw [show get_drive_format data =
      (if (pySlice data 3 11).length = 8 then
        match utf8decode (pySlice data 3 11) with
        | none => .error .unicodeDecodeError
        | some cs =>
          if containsSeq exfatPat cs then .ok "exfat" else .ok "fat"
      else .error .structError) from rfl]
    rw [if_pos hlen, hnone]

/-- Witness for the amended C5: a 512-byte sector carrying "EXFAT   " in
its OEM-name region is detected as exFAT. -/
theorem C5_detector_witness :
    get_drive_format ([0, 0, 0, 69, 88, 70, 65, 84, 32, 32, 32] ++ List.replicate 501 0) =
      .ok "exfat" := by
  have h := (C5_detector ([0, 0, 0, 69, 88, 70, 65, 84, 32, 32, 32] ++ List.replicate 501 0)
    (by decide)).1 [69, 88, 70, 65, 84, 32, 32, 32] (by decide)
  rw [h]
  decide
/-- C7 counterexample: a parameter set whose declared total (1 sector) is
smaller than the header regions yields a negative data_sectors and
count_of_clusters, returned as an ordinary success, with no
NegativeGeometry error. -/
theorem C7_counterexample :
    calculate_parameters (mkBootDict ⟨512, 1, 100, 1, 0, 1, 0, 1, 0, 0, 0, 0, 0⟩) "fat" =
      .ok [("format_name", .vstr "fat"),
           ("fat_start_sector", .vint 100),
           ("fat_sectors", .vint 1),
           ("root_directory_start_sector", .vint 101),
           ("root_directory_sectors", .vint 0),
           ("data_start_sector", .vint 101),
           ("data_sectors", .vint (-100)),
           ("count_of_clusters", .vint (-100))] := by
  decide

/-- C7 amended: compute_geometry performs no negativity check: whenever
the two divisors are nonzero it succeeds, and data_sectors is returned as
the raw subtraction (selected total minus data start) even when that
value is negative. -/
theorem C7_no_negative_check (f : FatFields)
    (hb : f.bytes_per_sector ≠ 0) (hs : f.sectors_per_cluster ≠ 0) :
    ∃ m, calculate_parameters (mkBootDict f) "fat" = .ok m ∧
      dictGet m "data_sectors" = some (.vint (dataSectorsVal f)) ∧
      dictGet m "count_of_clusters" =
        some (.vint (Int.fdiv (dataSectorsVal f) f.sectors_per_cluster)) :=
  ⟨geomDict f "fat", calc_mkBootDict f "fat" hb hs, rfl, rfl⟩

/-- Witness for the amended C7 at the same undersized parameter set. -/
theorem C7_no_negative_check_witness :
    ∃ m, calculate_parameters
        (mkBootDict ⟨512, 1, 100, 1, 0, 1, 0, 1, 0, 0, 0, 0, 0⟩) "fat" = .ok m ∧
      dictGet m "data_sectors" =
        some (.vint (dataSectorsVal ⟨512, 1, 100, 1, 0, 1, 0, 1, 0, 0, 0, 0, 0⟩)) ∧
      dictGet m "count_of_clusters" =
        some (.vint (Int.fdiv (dataSectorsVal ⟨512, 1, 100, 1, 0, 1, 0, 1, 0, 0, 0, 0, 0⟩)
          (⟨512, 1, 100, 1, 0, 1, 0, 1, 0, 0, 0, 0, 0⟩ : FatFields).sectors_per_cluster)) :=
  C7_no_negative_check ⟨512, 1, 100, 1, 0, 1, 0, 1, 0, 0, 0, 0, 0⟩ (by decide) (by decide)

/-- C8 counterexample: the successful result of compute_geometry on the
spec's end-to-end parameter set has eight entries, not seven: the key
format_name is present and bound to the string "fat". -/
theorem C8_counterexample :
    (calculate_parameters
      (mkBootDict ⟨512, 4, 32, 2, 0, 0, 0, 0, 0, 0, 0, 2000000, 1000⟩) "fat").map
        (fun m => m.map Prod.fst) =
      .ok ["format_name", "fat_start_sector", "fat_sectors",
        "root_directory_start_sector", "root_directory_sectors",
        "data_start_sector", "data_sectors", "count_of_clusters"] ∧
    resLookup (calculate_parameters
      (mkBootDict ⟨512, 4, 32, 2, 0, 0, 0, 0, 0, 0, 0, 2000000, 1000⟩) "fat")
      "format_name" = some (.vstr "fat") := by
  decide

/-- C8 amended: on success the returned mapping binds exactly eight keys,
in locals order: format_name (a string, the format-name argument) followed
by the seven derived quantities, each bound to an integer. -/
theorem C8_result_entries (f : FatFields) (fmt : String)
    (hb : f.bytes_per_sector ≠ 0) (hs : f.sectors_per_cluster ≠ 0) :
    ∃ m, calculate_parameters (mkBootDict f) fmt = .ok m ∧
      m.map Prod.fst = ["format_name", "fat_start_sector", "fat_sectors",
        "root_directory_start_sector", "root_directory_sectors",
        "data_start_sector", "data_sectors", "count_of_clusters"] ∧
      dictGet m "format_name" = some (.vstr fmt) ∧
      ∀ k v, (k, v) ∈ m → k ≠ "format_name" → ∃ i : Int, v = .vint i := by
  refine ⟨geomDict f fmt, calc_mkBootDict f fmt hb hs, rfl, rfl, ?_⟩
  intro k v hkv hk
  simp only [geomDict, List.mem_cons, List.mem_singleton, Prod.mk.injEq] at hkv
  rcases hkv with ⟨h1, h2⟩ | ⟨h1, h2⟩ | ⟨h1, h2⟩ | ⟨h1, h2⟩ | ⟨h1, h2⟩ | ⟨h1, h2⟩ |
    ⟨h1, h2⟩ | ⟨h1, h2⟩ | h
  · exact absurd h1 hk
  all_goals try exact ⟨_, h2⟩
  · cases h

/-- Witness for the amended C8 at the spec's end-to-end parameter set. -/
theorem C8_result_entries_witness :
    ∃ m, calculate_parameters
        (mkBootDict ⟨512, 4, 32, 2, 0, 0, 0, 0, 0, 0, 0, 2000000, 1000⟩) "fat" = .ok m ∧
      m.map Prod.fst = ["format_name", "fat_start_sector", "fat_sectors",
        "root_directory_start_sector", "root_directory_sectors",
        "data_start_sector", "data_sectors", "count_of_clusters"] ∧
      dictGet m "format_name" = some (.vstr "fat") ∧
      ∀ k v, (k, v) ∈ m → k ≠ "format_name" → ∃ i : Int, v = .vint i :=
  C8_result_entries ⟨512, 4, 32, 2, 0, 0, 0, 0, 0, 0, 0, 2000000, 1000⟩ "fat"
    (by decide) (by decide)

/-- C9: decoding a synthetic sector constructed from in-range field
values at the table offsets reproduces exactly those values, for both the
FAT and the exFAT table (little-endian multi-byte fields, sign-extended
signed 8-bit fields). -/
theorem C9_round_trip (f : FatFields) (g : ExfatFields)
    (hf : f.InRange) (hg : g.InRange) :
    get_boot_sector_params (mkFatSector f) "fat" = .ok (mkBootDict f) ∧
    get_boot_sector_params (mkExfatSector g) "exfat" = .ok (mkExfatDict g) :=
  ⟨fat_round_trip f hf, exfat_round_trip g hg⟩

/-- Witness for C9 at concrete field values exercising sign extension
(negative signed bytes) and wide little-endian fields. -/
theorem C9_round_trip_witness :
    get_boot_sector_params
        (mkFatSector ⟨512, -8, 32, 2, 512, 40000, -56, 250, 63, 255, 3000000000,
          4000000000, 150000⟩) "fat" =
      .ok (mkBootDict ⟨512, -8, 32, 2, 512, 40000, -56, 250, 63, 255, 3000000000,
        4000000000, 150000⟩) ∧
    get_boot_sector_params
        (mkExfatSector ⟨17000000000000000000, 123456789012345, 4096, 8192, 10000,
          250000, 5, 9, -3, 1⟩) "exfat" =
      .ok (mkExfatDict ⟨17000000000000000000, 123456789012345, 4096, 8192, 10000,
        250000, 5, 9, -3, 1⟩) :=
  C9_round_trip
    ⟨512, -8, 32, 2, 512, 40000, -56, 250, 63, 255, 3000000000, 4000000000, 150000⟩
    ⟨17000000000000000000, 123456789012345, 4096, 8192, 10000, 250000, 5, 9, -3, 1⟩
    (by decide) (by decide)

/-- C10: the instrumented semantics of calculate_parameters returns the
input parameter dict unchanged next to the same result the plain
semantics produces: the locals pop acts on the freshly built snapshot,
never on the caller's mapping. -/
theorem C10_input_dict_unchanged (boot : Dict) (fmt : String) :
    calculate_parameters_st boot fmt =
      (calculate_parameters boot fmt).map fun r => (r, boot) := by
  unfold calculate_parameters_st calculate_parameters getISt
  simp only [bind, Except.bind, pure, Except.pure, Except.map]
  cases h1 : getI boot "reserved_sectors_count" <;> dsimp only
  cases h2 : getI boot "numbers_of_FAT" <;> dsimp only
  cases h3 : getI boot "fat_size_16" <;> dsimp only
  rename_i v3
  by_cases hc1 : v3 ≠ 0 <;>
    (first | simp only [if_pos hc1] | simp only [if_neg hc1]) <;> try dsimp only
  all_goals try (cases h4 : getI boot "fat_size_32" <;> try dsimp only)
  all_goals try (cases h5 : getI boot "root_entity_count" <;> try dsimp only)
  all_goals try (cases h6 : getI boot "bytes_per_sector" <;> try dsimp only)
  all_goals rename_i vbps
  all_goals (by_cases hc2 : vbps = 0 <;>
    (first | simp only [if_pos hc2] | simp only [if_neg hc2]) <;> try dsimp only)
  all_goals try (cases h7 : getI boot "total_sectors_16" <;> try dsimp only)
  all_goals rename_i vts
  all_goals (by_cases hc3 : vts ≠ 0 <;>
    (first | simp only [if_pos hc3] | simp only [if_neg hc3]) <;> try dsimp only)
  all_goals try (cases h8 : getI boot "total_sectors_32" <;> try dsimp only)
  all_goals try (cases h9 : getI boot "sectors_per_cluster" <;> try dsimp only)
  all_goals rename_i vspc
  all_goals (by_cases hc4 : vspc = 0 <;>
    (first | simp only [if_pos hc4] | simp only [if_neg hc4]) <;> try dsimp only)
  all_goals rfl
